import Mathlib

/-!
# Verification of the CV-analyzer pipeline

Shallow embedding of the cv-analyzer-app sources:
  * `src/server.js`             — Express service: POST /api/analyze, GET /api/results/:id,
                                  background `processFiles` loop
  * `src/supabase/functions/v1/process-cv/index.ts` — Deno edge-function variant

External collaborators (the Gemini model, the pdf-parse library, the Supabase
datastore's success/failure of individual inserts) are modelled as per-call
outcome oracles supplied as inputs; everything the repository's own code does
with those outcomes is embedded faithfully.

JSON values returned by the language model are modelled by the inductive `Js`
(JSON numbers restricted to integers; JS strings treated as sequences of
Unicode scalar values).
-/

/-- A JavaScript value as it can appear after `JSON.parse`, extended with
`undefined` for the result of a missing-property access. -/
inductive Js where
  | null
  | undefined
  | bool (b : Bool)
  | num (n : Int)
  | str (s : String)
  | arr (elems : List Js)
  | obj (fields : List (String × Js))

/-- JS truthiness (`if (v)`): `null`, `undefined`, `false`, `0` and `""` are
falsy; arrays and objects are always truthy.  (`NaN` is not representable in
this integer-number model.) -/
def truthy : Js → Bool
  | .null => false
  | .undefined => false
  | .bool b => b
  | .num n => n != 0
  | .str s => s != ""
  | .arr _ => true
  | .obj _ => true

/-- Property access `v.k` as the pipeline performs it on the parsed analysis
object: a missing key, or a non-object receiver, yields `undefined`.
(The code only accesses properties of values it has already checked truthy,
so the throwing receivers `null`/`undefined` are never reached.) -/
def getField (v : Js) (k : String) : Js :=
  match v with
  | .obj fields =>
    match fields.find? (fun kv => kv.1 = k) with
    | some kv => kv.2
    | none => .undefined
  | _ => .undefined

/-- `v || null`, as used for the stored `ats_score`, `candidate_name`,
`candidate_email` and `candidate_phone` columns. -/
def jsOrNull (v : Js) : Js :=
  if truthy v then v else Js.null

/-- Value of a character as a base-`radix` digit, when it is one. -/
def digitVal (c : Char) : Option Nat :=
  if '0' ≤ c ∧ c ≤ '9' then some (c.toNat - '0'.toNat)
  else if 'a' ≤ c ∧ c ≤ 'f' then some (c.toNat - 'a'.toNat + 10)
  else if 'A' ≤ c ∧ c ≤ 'F' then some (c.toNat - 'A'.toNat + 10)
  else none

/-- Is `c` a digit of the given radix (10 or 16)? -/
def isRadixDigit (radix : Nat) (c : Char) : Bool :=
  match digitVal c with
  | some v => v < radix
  | none => false

/-- JavaScript `parseInt(s)` (no explicit radix): skip leading whitespace,
read an optional sign, switch to base 16 after a `0x`/`0X` prefix, then take
the longest prefix of digits.  `none` stands for `NaN`. -/
def parseIntJS (s : String) : Option Int :=
  let cs := s.toList.dropWhile Char.isWhitespace
  let (sign, cs1) : Int × List Char :=
    match cs with
    | '-' :: rest => (-1, rest)
    | '+' :: rest => (1, rest)
    | _ => (1, cs)
  let (radix, cs2) : Nat × List Char :=
    match cs1 with
    | '0' :: 'x' :: rest => (16, rest)
    | '0' :: 'X' :: rest => (16, rest)
    | _ => (10, cs1)
  let digits := cs2.takeWhile (isRadixDigit radix)
  match digits with
  | [] => none
  | _ =>
    some (sign * (digits.foldl (fun a c => a * (radix : Int) + (((digitVal c).getD 0 : Nat) : Int)) (0 : Int)))

/-- `parseInt(x) || 0`: `NaN` (and `0` itself, and `-0`) become `0`. -/
def parseIntOr0 (s : String) : Int :=
  (parseIntJS s).getD 0

mutual

/-- JS string conversion as applied by `parseInt` to its argument.  Arrays
stringify as their elements joined by commas with `null`/`undefined`
elements becoming empty; objects as `"[object Object]"`. -/
def jsToStr : Js → String
  | .null => "null"
  | .undefined => "undefined"
  | .bool b => if b then "true" else "false"
  | .num n => toString n
  | .str s => s
  | .obj _ => "[object Object]"
  | .arr elems => String.intercalate "," (jsToStrList elems)

/-- `Array.prototype.join(',')` on the stringified elements: `null` and
`undefined` elements become empty pieces. -/
def jsToStrList : List Js → List String
  | [] => []
  | .null :: rest => "" :: jsToStrList rest
  | .undefined :: rest => "" :: jsToStrList rest
  | v :: rest => jsToStr v :: jsToStrList rest

end

/-- The derived numeric score: `parseInt(analysis_result.ATS) || 0`. -/
def scoreOfAnalysis (a : Js) : Int :=
  parseIntOr0 (jsToStr (getField a "ATS"))

/-- `s.startsWith(p)` on the character sequence (used for `mimetype.startsWith('image/')`). -/
def strStartsWith (s p : String) : Bool :=
  p.toList.isPrefixOf s.toList

/-- Helper of `jsSplitComma`: split at every comma, keeping empty pieces. -/
def splitCommaAux : List Char → List Char → List String
  | [], acc => [String.mk acc.reverse]
  | c :: rest, acc =>
    if c = ',' then String.mk acc.reverse :: splitCommaAux rest []
    else splitCommaAux rest (c :: acc)

/-- JavaScript `s.split(',')`: every comma separates, empty pieces are kept,
and the empty string yields `[""]`. -/
def jsSplitComma (s : String) : List String :=
  splitCommaAux s.toList []

/-- JavaScript `s.trim()`: strip leading and trailing whitespace. -/
def jsTrim (s : String) : String :=
  String.mk (((s.toList.dropWhile Char.isWhitespace).reverse.dropWhile Char.isWhitespace).reverse)

/-- JavaScript element access `v[i]`: throws a TypeError on `null`/`undefined`
(the `.error` case), yields the `i`-th character of a string, the `i`-th
element of an array (`undefined` out of range), the `"i"` property of an
object, and `undefined` on numbers and booleans. -/
def jsIndex : Js → Nat → Except Unit Js
  | .null, _ => .error ()
  | .undefined, _ => .error ()
  | .bool _, _ => .ok .undefined
  | .num _, _ => .ok .undefined
  | .str s, i =>
    .ok (match s.toList.get? i with
      | some c => .str (String.mk [c])
      | none => .undefined)
  | .arr l, i => .ok ((l.get? i).getD .undefined)
  | .obj fields, i =>
    .ok (match fields.find? (fun kv => kv.1 = toString i) with
      | some kv => kv.2
      | none => .undefined)

/-- Total variant of `jsIndex` for receivers that do not throw. -/
def jsIndexD (v : Js) (i : Nat) : Js :=
  match jsIndex v i with
  | .ok r => r
  | .error _ => .undefined

-- ---------------------------------------------------------------------------
-- Datastore rows and state
-- ---------------------------------------------------------------------------

/-- A row of the `submissions` table.  `keywords` is `none` when the request
carried no keywords field (the column is then null); `user_id` is set only by
the authenticated edge-function variant. -/
structure SubmissionRow where
  id : Nat
  keywords : Option String
  user_id : Option Nat

/-- A row of the `cv_results` table.  The columns written from the analysis
object keep the JS value `field || null`. -/
structure CvRow where
  id : Nat
  submission_id : Nat
  original_filename : String
  ats_score : Js
  candidate_name : Js
  candidate_email : Js
  candidate_phone : Js
  full_text : String

/-- A row of `education_details`. -/
structure EduRow where
  cv_result_id : Nat
  institution : Js

/-- A row of `experience_details`. -/
structure ExpRow where
  cv_result_id : Nat
  description : Js

/-- A row of `skill_details`. -/
structure SkillRow where
  cv_result_id : Nat
  category : Js
  details : Js

/-- The relational datastore: the five tables plus the id sequences. -/
structure DB where
  nextSubmissionId : Nat
  nextCvId : Nat
  submissions : List SubmissionRow
  cv_results : List CvRow
  education_details : List EduRow
  experience_details : List ExpRow
  skill_details : List SkillRow

/-- The empty datastore. -/
def emptyDB : DB :=
  ⟨0, 0, [], [], [], [], []⟩

/-- The three detail tables of a datastore state, bundled. -/
def detailTables (db : DB) : List EduRow × List ExpRow × List SkillRow :=
  (db.education_details, db.experience_details, db.skill_details)

-- ---------------------------------------------------------------------------
-- src/server.js — helpers and background pipeline
-- ---------------------------------------------------------------------------

/-- One uploaded file together with the outcomes of the external calls its
processing can trigger.  `ocrOutcome` is the Gemini OCR call inside
`getTextFromImage`; `pdfOutcome` is the `pdf(buffer)` call inside
`getTextFromPdf`; `analysisOutcome` is the combined Gemini call, code-fence
stripping and `JSON.parse` inside `analyzeCvText` (`.error` when any of them
throws); `cvInsertFails` is the datastore outcome of the `cv_results` insert. -/
structure FileJob where
  originalname : String
  mimetype : String
  ocrOutcome : Except Unit String
  pdfOutcome : Except Unit String
  analysisOutcome : Except Unit Js
  cvInsertFails : Bool

/-- `getTextFromImage`: the Gemini call's failure is caught and becomes
`null` (`none`); its text is returned otherwise. -/
def getTextFromImage (callOutcome : Except Unit String) : Option String :=
  match callOutcome with
  | .ok t => some t
  | .error _ => none

/-- `getTextFromPdf`: a `pdf-parse` failure is caught and becomes `null`. -/
def getTextFromPdf (callOutcome : Except Unit String) : Option String :=
  match callOutcome with
  | .ok t => some t
  | .error _ => none

/-- `analyzeCvText`: a model-call or JSON-parse failure is caught and becomes
`null`; the parsed JS value is returned otherwise. -/
def analyzeCvText (callOutcome : Except Unit Js) : Option Js :=
  match callOutcome with
  | .ok a => some a
  | .error _ => none

/-- The extraction dispatch at the top of the `processFiles` loop body:
image media types go to OCR, `application/pdf` to the PDF parser, and any
other media type is skipped (`extracted_text` stays `null`). -/
def extractText (j : FileJob) : Option String :=
  if strStartsWith j.mimetype "image/" then getTextFromImage j.ocrOutcome
  else if j.mimetype = "application/pdf" then getTextFromPdf j.pdfOutcome
  else none

/-- The `cv_results` row built by the primary insert of `processFiles`. -/
def mkCvRow (sid cvId : Nat) (filename : String) (a : Js) (text : String) : CvRow :=
  { id := cvId
    submission_id := sid
    original_filename := filename
    ats_score := jsOrNull (getField a "ATS")
    candidate_name := jsOrNull (getField a "Name")
    candidate_email := jsOrNull (getField a "Mail")
    candidate_phone := jsOrNull (getField a "Phone")
    full_text := text }

/-- The skill record `{cv_result_id, category: item[0], details: item[1]}`;
indexing throws on a `null`/`undefined` item. -/
def mkSkillRecord (cv_result_id : Nat) (item : Js) : Except Unit SkillRow := do
  let c ← jsIndex item 0
  let d ← jsIndex item 1
  pure { cv_result_id := cv_result_id, category := c, details := d }

/-- `if (Edu && Array.isArray(Edu)) { ... if (eduRecords.length > 0) insert }`. -/
def eduStep (v : Js) (cv_result_id : Nat) (db : DB) : DB :=
  match v with
  | .arr l =>
    if l.length ≠ 0 then
      { db with education_details :=
          db.education_details ++ l.map (fun item => ⟨cv_result_id, item⟩) }
    else db
  | _ => db

/-- `if (EXPERIENCE && Array.isArray(EXPERIENCE)) { ... }`. -/
def expStep (v : Js) (cv_result_id : Nat) (db : DB) : DB :=
  match v with
  | .arr l =>
    if l.length ≠ 0 then
      { db with experience_details :=
          db.experience_details ++ l.map (fun item => ⟨cv_result_id, item⟩) }
    else db
  | _ => db

/-- `if (SKILLS && Array.isArray(SKILLS)) { const skillRecords = SKILLS.map(...) ... }`:
the `.map` callback indexes each item and therefore throws a TypeError on a
`null`/`undefined` item, before any insert happens. -/
def skillStep (v : Js) (cv_result_id : Nat) (db : DB) : Except DB DB :=
  match v with
  | .arr l =>
    match l.mapM (mkSkillRecord cv_result_id) with
    | .error _ => .error db
    | .ok recs =>
      .ok (if recs.length ≠ 0 then
        { db with skill_details := db.skill_details ++ recs }
      else db)
  | _ => .ok db

/-- The `score > 65` detail block of `processFiles`, in source order:
education, then experience, then skills. -/
def insertDetails (a : Js) (cv_result_id : Nat) (db : DB) : Except DB DB :=
  skillStep (getField a "SKILLS") cv_result_id
    (expStep (getField a "EXPERIENCE") cv_result_id
      (eduStep (getField a "Edu") cv_result_id db))

/-- The body of the `for (const file of files)` loop of `processFiles`.
`.error db` is an exception escaping the (try-less) loop body, with `db` the
datastore state at the moment of the throw. -/
def processFile (j : FileJob) (sid : Nat) (db : DB) : Except DB DB :=
  match extractText j with
  | none => .ok db
  | some t =>
    if t = "" then .ok db
    else
      match analyzeCvText j.analysisOutcome with
      | none => .ok db
      | some a =>
        if truthy a then
          if j.cvInsertFails then .ok db
          else
            let cvId := db.nextCvId
            let db1 : DB :=
              { db with
                  nextCvId := cvId + 1
                  cv_results := db.cv_results ++ [mkCvRow sid cvId j.originalname a t] }
            if scoreOfAnalysis a > 65 then insertDetails a cvId db1 else .ok db1
        else .ok db

/-- `processFiles(files, submission_id, keywords)`: the sequential per-file
loop.  An exception thrown by a loop body terminates the whole (uncaught,
un-awaited) async function, freezing the datastore at the throw state. -/
def processFiles (jobs : List FileJob) (sid : Nat) (db : DB) : DB :=
  match jobs with
  | [] => db
  | j :: rest =>
    match processFile j sid db with
    | .ok db1 => processFiles rest sid db1
    | .error db1 => db1

-- ---------------------------------------------------------------------------
-- src/server.js — HTTP handlers
-- ---------------------------------------------------------------------------

/-- Response of `POST /api/analyze`. -/
inductive SubmitResp where
  | badRequest
  | serverError
  | success (submissionId : Nat)

/-- HTTP status code of a `POST /api/analyze` response. -/
def SubmitResp.statusCode : SubmitResp → Nat
  | .badRequest => 400
  | .serverError => 500
  | .success _ => 200

/-- The `POST /api/analyze` handler: reject an empty file list with 400,
fail with 500 when the `submissions` insert fails, otherwise create the one
submission row, launch `processFiles` in the background, and answer 200 with
the new submission id.  `keywords` is `req.body.keywords` (`none` when the
field is missing — the handler never checks it). -/
def analyzeHandler (jobs : List FileJob) (keywords : Option String)
    (submissionInsertFails : Bool) (db : DB) : SubmitResp × DB :=
  if jobs.length = 0 then (.badRequest, db)
  else if submissionInsertFails then (.serverError, db)
  else
    let sid := db.nextSubmissionId
    let db1 : DB :=
      { db with
          nextSubmissionId := sid + 1
          submissions := db.submissions ++ [⟨sid, keywords, none⟩] }
    (.success sid, processFiles jobs sid db1)

/-- One element of the `results` array of `GET /api/results/:id`. -/
structure CvSummary where
  id : Nat
  fileName : String
  matchPercentage : Int

/-- `{id: cv.id, fileName: cv.original_filename, matchPercentage: parseInt(cv.ats_score) || 0}`. -/
def cvSummary (c : CvRow) : CvSummary :=
  ⟨c.id, c.original_filename, parseIntOr0 (jsToStr c.ats_score)⟩

/-- Outcome of `GET /api/results/:id`.  `crash` is the uncaught TypeError of
`submission.keywords.split(',')` when the stored keywords column is null. -/
inductive ResultsRead where
  | notFound
  | processing
  | success (totalCVs : Nat) (analysisKeywords : List String) (results : List CvSummary)
  | crash

/-- HTTP status code of a results read, where one is produced at all. -/
def ResultsRead.statusCode : ResultsRead → Option Nat
  | .notFound => some 404
  | .processing => some 202
  | .success _ _ _ => some 200
  | .crash => none

/-- The `GET /api/results/:id` handler: unknown id → 404; known id with no
`cv_results` rows → 202 processing; otherwise the success payload with the
total count, the comma-split trimmed keywords and one summary per row. -/
def getResults (db : DB) (id : Nat) : ResultsRead :=
  match db.submissions.find? (fun s => s.id == id) with
  | none => .notFound
  | some sub =>
    let cvs := db.cv_results.filter (fun c => c.submission_id == id)
    if cvs.length = 0 then .processing
    else
      match sub.keywords with
      | none => .crash
      | some kw => .success cvs.length ((jsSplitComma kw).map jsTrim) (cvs.map cvSummary)

-- ---------------------------------------------------------------------------
-- src/supabase/functions/v1/process-cv/index.ts — Deno edge-function variant
-- ---------------------------------------------------------------------------

/-- An uploaded file of the edge-function variant.  `bufferOutcome` is the
`file.arrayBuffer()` call at the top of the loop body, which is not wrapped
in any try/catch of the repository's own code. -/
structure DenoFileJob where
  name : String
  type : String
  bufferOutcome : Except Unit Unit
  ocrOutcome : Except Unit String
  pdfOutcome : Except Unit String
  analysisOutcome : Except Unit Js
  cvInsertFails : Bool

/-- Truthiness of `v?.length`: array and string lengths, the `length`
property of an object, `undefined` (falsy) on everything else. -/
def hasTruthyLength (v : Js) : Bool :=
  match v with
  | .arr l => l.length != 0
  | .str s => s != ""
  | .obj fields => truthy (getField (.obj fields) "length")
  | _ => false

/-- `if (Edu?.length) { const eduRecords = Edu.map(...); insert }` of the
edge function: a truthy `length` on a non-array receiver makes `.map` throw
(`.map is not a function`). -/
def denoEduStep (v : Js) (cv_result_id : Nat) (db : DB) : Except DB DB :=
  if hasTruthyLength v then
    match v with
    | .arr l =>
      .ok { db with education_details :=
        db.education_details ++ l.map (fun item => ⟨cv_result_id, item⟩) }
    | _ => .error db
  else .ok db

/-- `if (EXPERIENCE?.length) { ... }` of the edge function. -/
def denoExpStep (v : Js) (cv_result_id : Nat) (db : DB) : Except DB DB :=
  if hasTruthyLength v then
    match v with
    | .arr l =>
      .ok { db with experience_details :=
        db.experience_details ++ l.map (fun item => ⟨cv_result_id, item⟩) }
    | _ => .error db
  else .ok db

/-- `if (SKILLS?.length) { const skillRecords = SKILLS.map(...); insert }` of
the edge function: the callback indexes each item, throwing on
`null`/`undefined` items. -/
def denoSkillStep (v : Js) (cv_result_id : Nat) (db : DB) : Except DB DB :=
  if hasTruthyLength v then
    match v with
    | .arr l =>
      match l.mapM (mkSkillRecord cv_result_id) with
      | .error _ => .error db
      | .ok recs => .ok { db with skill_details := db.skill_details ++ recs }
    | _ => .error db
  else .ok db

/-- The `score > 65` detail block of the edge function. -/
def denoInsertDetails (a : Js) (cv_result_id : Nat) (db : DB) : Except DB DB := do
  let db1 ← denoEduStep (getField a "Edu") cv_result_id db
  let db2 ← denoExpStep (getField a "EXPERIENCE") cv_result_id db1
  denoSkillStep (getField a "SKILLS") cv_result_id db2

/-- Extraction dispatch of the edge function (`file.type`). -/
def denoExtractText (j : DenoFileJob) : Option String :=
  if strStartsWith j.type "image/" then getTextFromImage j.ocrOutcome
  else if j.type = "application/pdf" then getTextFromPdf j.pdfOutcome
  else none

/-- Loop body of the edge function's background IIFE; `.error db` is an
exception escaping the body (the v1 IIFE has no try/catch; the other
edge-function file catches it outside the loop and only logs — the datastore
outcome is identical). -/
def processFileDeno (j : DenoFileJob) (sid : Nat) (db : DB) : Except DB DB :=
  match j.bufferOutcome with
  | .error _ => .error db
  | .ok _ =>
    match denoExtractText j with
    | none => .ok db
    | some t =>
      if t = "" then .ok db
      else
        match analyzeCvText j.analysisOutcome with
        | none => .ok db
        | some a =>
          if truthy a then
            if j.cvInsertFails then .ok db
            else
              let cvId := db.nextCvId
              let db1 : DB :=
                { db with
                    nextCvId := cvId + 1
                    cv_results := db.cv_results ++ [mkCvRow sid cvId j.name a t] }
              if scoreOfAnalysis a > 65 then denoInsertDetails a cvId db1 else .ok db1
          else .ok db

/-- The background per-file loop of the edge function. -/
def denoProcessFiles (jobs : List DenoFileJob) (sid : Nat) (db : DB) : DB :=
  match jobs with
  | [] => db
  | j :: rest =>
    match processFileDeno j sid db with
    | .ok db1 => denoProcessFiles rest sid db1
    | .error db1 => db1

/-- Response of the edge function's `Deno.serve` handler.  `caughtError` is
the outer `catch` answering with the thrown error's message. -/
inductive DenoResp where
  | unauthorized
  | noFiles
  | caughtError
  | success (submissionId : Nat)

/-- HTTP status code of an edge-function response: note that the outer
`catch` — reached in particular when the `submissions` insert fails and its
error is thrown — answers with status 400. -/
def DenoResp.statusCode : DenoResp → Nat
  | .unauthorized => 401
  | .noFiles => 400
  | .caughtError => 400
  | .success _ => 200

/-- The edge function's `Deno.serve` handler: 401 without a user, 400 on an
empty file list, 400 (via `throw submissionError` and the outer catch) when
the `submissions` insert fails, otherwise the one submission row is created,
the background loop launched, and 200 returned with the submission id. -/
def denoServeHandler (user : Option Nat) (jobs : List DenoFileJob)
    (keywords : Option String) (submissionInsertFails : Bool) (db : DB) :
    DenoResp × DB :=
  match user with
  | none => (.unauthorized, db)
  | some uid =>
    if jobs.length = 0 then (.noFiles, db)
    else if submissionInsertFails then (.caughtError, db)
    else
      let sid := db.nextSubmissionId
      let db1 : DB :=
        { db with
            nextSubmissionId := sid + 1
            submissions := db.submissions ++ [⟨sid, keywords, some uid⟩] }
      (.success sid, denoProcessFiles jobs sid db1)

-- ---------------------------------------------------------------------------
-- Derived notions used by the verification
-- ---------------------------------------------------------------------------

/-- The datastore state an `Except`-valued step leaves behind, whether it
returned normally or threw. -/
def outDB : Except DB DB → DB
  | .ok db => db
  | .error db => db

/-- Did the step throw? -/
def isThrow : Except DB DB → Bool
  | .ok _ => false
  | .error _ => true

/-- The derived numeric score of a stored `cv_results` row, as the results
reader recomputes it: `parseInt(cv.ats_score) || 0`. -/
def rowScore (c : CvRow) : Int :=
  parseIntOr0 (jsToStr c.ats_score)

/-- Every detail row references a `cv_results` row that exists and whose
derived score strictly exceeds the 65 threshold. -/
def detailsValid (db : DB) : Prop :=
  (∀ e ∈ db.education_details, ∃ c ∈ db.cv_results, c.id = e.cv_result_id ∧ 65 < rowScore c) ∧
  (∀ e ∈ db.experience_details, ∃ c ∈ db.cv_results, c.id = e.cv_result_id ∧ 65 < rowScore c) ∧
  (∀ e ∈ db.skill_details, ∃ c ∈ db.cv_results, c.id = e.cv_result_id ∧ 65 < rowScore c)

-- ---------------------------------------------------------------------------
-- Concrete fixtures (used by witnesses and counterexamples)
-- ---------------------------------------------------------------------------

/-- A well-formed analysis object scoring 70%. -/
def aGood : Js :=
  Js.obj [("ATS", Js.str "70%"), ("Name", Js.str "Jo"), ("Mail", Js.str "jo@x.io"),
    ("Edu", Js.arr [Js.str "BSc"]),
    ("SKILLS", Js.arr [Js.arr [Js.str "Databases", Js.str "SQL"]]),
    ("EXPERIENCE", Js.arr [Js.str "Dev"])]

/-- A PDF upload whose extraction, analysis and primary insert all succeed. -/
def goodJob : FileJob :=
  ⟨"cv.pdf", "application/pdf", .error (), .ok "some text", .ok aGood, false⟩

/-- An analysis object scoring 40%, below the 65 threshold, with non-empty
detail arrays. -/
def aLow : Js :=
  Js.obj [("ATS", Js.str "40%"), ("Edu", Js.arr [Js.str "BSc"]),
    ("SKILLS", Js.arr [Js.arr [Js.str "Databases", Js.str "SQL"]]),
    ("EXPERIENCE", Js.arr [Js.str "Dev"])]

/-- A PDF upload whose analysis scores 40%. -/
def lowJob : FileJob :=
  ⟨"low.pdf", "application/pdf", .error (), .ok "some text", .ok aLow, false⟩

/-- An analysis object scoring 70% whose `SKILLS` array contains a `null`
entry (a type mismatch the model can produce). -/
def aBad : Js :=
  Js.obj [("ATS", Js.str "70%"), ("Edu", Js.arr [Js.str "BSc"]),
    ("SKILLS", Js.arr [Js.null]),
    ("EXPERIENCE", Js.arr [Js.str "Dev"])]

/-- A PDF upload whose analysis succeeds but carries the `null` skill entry. -/
def badJob : FileJob :=
  ⟨"bad.pdf", "application/pdf", .error (), .ok "some text", .ok aBad, false⟩

/-- An upload with an unsupported media type. -/
def docxJob : FileJob :=
  ⟨"cv.docx", "application/msword", .error (), .error (), .ok aGood, false⟩

/-- An edge-function upload that processes successfully. -/
def denoGoodJob : DenoFileJob :=
  ⟨"cv.pdf", "application/pdf", .ok (), .error (), .ok "some text", .ok aGood, false⟩

/-- An edge-function upload whose `file.arrayBuffer()` call rejects — an
error no repository code catches inside the loop. -/
def denoCrashJob : DenoFileJob :=
  ⟨"crash.pdf", "application/pdf", .error (), .error (), .error (), .error (), false⟩

-- ---------------------------------------------------------------------------
-- Shared lemmas
-- ---------------------------------------------------------------------------

/-- Storing `ATS || null` and re-parsing gives the same number as parsing the
original `ATS` value: every falsy `ATS` parses to 0, as does `null`. -/
theorem parseIntOr0_jsOrNull (v : Js) :
    parseIntOr0 (jsToStr (jsOrNull v)) = parseIntOr0 (jsToStr v) := by
  cases v with
  | null => rfl
  | undefined => decide
  | bool b =>
    cases b with
    | false => decide
    | true => rfl
  | num n =>
    by_cases h : n = 0
    · subst h; decide
    · simp [jsOrNull, truthy, h]
  | str s =>
    by_cases h : s = ""
    · subst h; decide
    · simp [jsOrNull, truthy, h]
  | arr l => rfl
  | obj fields => rfl

/-- The stored row's recomputed score is the score the persister derived. -/
theorem rowScore_mkCvRow (sid cvId : Nat) (fn : String) (a : Js) (t : String) :
    rowScore (mkCvRow sid cvId fn a t) = scoreOfAnalysis a := by
  simp [rowScore, mkCvRow, scoreOfAnalysis, parseIntOr0_jsOrNull]

/-- `eduStep` only touches the `education_details` table. -/
theorem eduStep_frame (v : Js) (cvId : Nat) (db : DB) :
    (eduStep v cvId db).submissions = db.submissions ∧
    (eduStep v cvId db).cv_results = db.cv_results ∧
    (eduStep v cvId db).experience_details = db.experience_details ∧
    (eduStep v cvId db).skill_details = db.skill_details := by
  unfold eduStep
  split
  · split <;> simp
  · simp

/-- `expStep` only touches the `experience_details` table. -/
theorem expStep_frame (v : Js) (cvId : Nat) (db : DB) :
    (expStep v cvId db).submissions = db.submissions ∧
    (expStep v cvId db).cv_results = db.cv_results ∧
    (expStep v cvId db).education_details = db.education_details ∧
    (expStep v cvId db).skill_details = db.skill_details := by
  unfold expStep
  split
  · split <;> simp
  · simp

/-- `skillStep` only touches the `skill_details` table, whether it returns or
throws. -/
theorem skillStep_frame (v : Js) (cvId : Nat) (db : DB) :
    (outDB (skillStep v cvId db)).submissions = db.submissions ∧
    (outDB (skillStep v cvId db)).cv_results = db.cv_results ∧
    (outDB (skillStep v cvId db)).education_details = db.education_details ∧
    (outDB (skillStep v cvId db)).experience_details = db.experience_details := by
  unfold skillStep
  split
  · split
    · simp [outDB]
    · split <;> simp [outDB]
  · simp [outDB]

/-- `insertDetails` never touches `submissions` or `cv_results`. -/
theorem insertDetails_frame (a : Js) (cvId : Nat) (db : DB) :
    (outDB (insertDetails a cvId db)).submissions = db.submissions ∧
    (outDB (insertDetails a cvId db)).cv_results = db.cv_results := by
  unfold insertDetails
  have he := eduStep_frame (getField a "Edu") cvId db
  have hx := expStep_frame (getField a "EXPERIENCE") cvId
    (eduStep (getField a "Edu") cvId db)
  have hs := skillStep_frame (getField a "SKILLS") cvId
    (expStep (getField a "EXPERIENCE") cvId (eduStep (getField a "Edu") cvId db))
  exact ⟨hs.1.trans (hx.1.trans he.1), (hs.2.1.trans (hx.2.1.trans he.2.1))⟩

/-- The per-file loop body never touches the `submissions` table. -/
theorem processFile_submissions (j : FileJob) (sid : Nat) (db : DB) :
    (outDB (processFile j sid db)).submissions = db.submissions := by
  unfold processFile
  split
  · rfl
  · split
    · rfl
    · split
      · rfl
      · split
        · split
          · rfl
          · split
            · exact (insertDetails_frame _ _ _).1
            · rfl
        · rfl

/-- `processFiles` never touches the `submissions` table. -/
theorem processFiles_submissions (jobs : List FileJob) (sid : Nat) (db : DB) :
    (processFiles jobs sid db).submissions = db.submissions := by
  induction jobs generalizing db with
  | nil => rfl
  | cons j rest ih =>
    have h := processFile_submissions j sid db
    unfold processFiles
    cases hpf : processFile j sid db with
    | ok db1 =>
      rw [hpf] at h
      exact (ih db1).trans h
    | error db1 =>
      rw [hpf] at h
      exact h

/-- Indexing any receiver other than `null`/`undefined` does not throw. -/
theorem jsIndex_ok (x : Js) (i : Nat) (h1 : x ≠ .null) (h2 : x ≠ .undefined) :
    jsIndex x i = .ok (jsIndexD x i) := by
  cases x with
  | null => exact absurd rfl h1
  | undefined => exact absurd rfl h2
  | bool b => rfl
  | num n => rfl
  | str s => rfl
  | arr l => rfl
  | obj fields => rfl

/-- Any skill record the map produces references the given `cv_result_id`. -/
theorem mkSkillRecord_cvid (cvId : Nat) (x : Js) (r : SkillRow)
    (h : mkSkillRecord cvId x = .ok r) : r.cv_result_id = cvId := by
  unfold mkSkillRecord at h
  cases h0 : jsIndex x 0 with
  | error e => rw [h0] at h; exact absurd h (by simp [Bind.bind, Except.bind])
  | ok c =>
    rw [h0] at h
    cases h1 : jsIndex x 1 with
    | error e => rw [h1] at h; exact absurd h (by simp [Bind.bind, Except.bind])
    | ok d =>
      rw [h1] at h
      simp [Bind.bind, Except.bind, Pure.pure, Except.pure] at h
      rw [← h]

/-- When the skills map succeeds, every produced record references the given
`cv_result_id`. -/
theorem mapM_mkSkillRecord_mem (cvId : Nat) (l : List Js) (recs : List SkillRow)
    (h : l.mapM (mkSkillRecord cvId) = .ok recs) :
    ∀ r ∈ recs, r.cv_result_id = cvId := by
  induction l generalizing recs with
  | nil =>
    rw [List.mapM_nil] at h
    simp [Pure.pure, Except.pure] at h
    subst h
    intro r hr
    exact absurd hr (List.not_mem_nil r)
  | cons x xs ih =>
    rw [List.mapM_cons] at h
    cases h0 : mkSkillRecord cvId x with
    | error e => rw [h0] at h; exact absurd h (by simp [Bind.bind, Except.bind])
    | ok y =>
      rw [h0] at h
      cases h1 : xs.mapM (mkSkillRecord cvId) with
      | error e =>
        rw [h1] at h
        exact absurd h (by simp [Bind.bind, Except.bind])
      | ok ys =>
        rw [h1] at h
        simp [Bind.bind, Except.bind, Pure.pure, Except.pure] at h
        subst h
        intro r hr
        rcases List.mem_cons.mp hr with rfl | hr2
        · exact mkSkillRecord_cvid cvId x r h0
        · exact ih ys h1 r hr2

/-- On a list of non-`null`, non-`undefined` items, the skills map succeeds
and produces one record per item, reading positions 0 and 1 of each. -/
theorem mapM_mkSkillRecord_ok (cvId : Nat) (l : List Js)
    (h : ∀ x ∈ l, x ≠ .null ∧ x ≠ .undefined) :
    l.mapM (mkSkillRecord cvId) =
      .ok (l.map (fun item => ⟨cvId, jsIndexD item 0, jsIndexD item 1⟩)) := by
  induction l with
  | nil => rfl
  | cons x xs ih =>
    have hx := h x (List.mem_cons_self x xs)
    rw [List.mapM_cons]
    rw [mkSkillRecord, jsIndex_ok x 0 hx.1 hx.2, jsIndex_ok x 1 hx.1 hx.2,
      ih (fun y hy => h y (List.mem_cons_of_mem x hy))]
    rfl

/-- `eduStep` keeps the detail-reference invariant when the target
`cv_results` row exists with score above the threshold. -/
theorem detailsValid_eduStep (v : Js) (cvId : Nat) (db : DB)
    (h : detailsValid db)
    (hc : ∃ c ∈ db.cv_results, c.id = cvId ∧ 65 < rowScore c) :
    detailsValid (eduStep v cvId db) := by
  unfold eduStep
  split
  · split
    · refine ⟨?_, h.2.1, h.2.2⟩
      intro e he
      rcases List.mem_append.mp he with hin | hnew
      · exact h.1 e hin
      · obtain ⟨item, hitem, rfl⟩ := List.mem_map.mp hnew
        exact hc
    · exact h
  · exact h

/-- `expStep` keeps the detail-reference invariant under the same condition. -/
theorem detailsValid_expStep (v : Js) (cvId : Nat) (db : DB)
    (h : detailsValid db)
    (hc : ∃ c ∈ db.cv_results, c.id = cvId ∧ 65 < rowScore c) :
    detailsValid (expStep v cvId db) := by
  unfold expStep
  split
  · split
    · refine ⟨h.1, ?_, h.2.2⟩
      intro e he
      rcases List.mem_append.mp he with hin | hnew
      · exact h.2.1 e hin
      · obtain ⟨item, hitem, rfl⟩ := List.mem_map.mp hnew
        exact hc
    · exact h
  · exact h

/-- `skillStep` keeps the detail-reference invariant under the same
condition, whether it returns or throws. -/
theorem detailsValid_skillStep (v : Js) (cvId : Nat) (db : DB)
    (h : detailsValid db)
    (hc : ∃ c ∈ db.cv_results, c.id = cvId ∧ 65 < rowScore c) :
    detailsValid (outDB (skillStep v cvId db)) := by
  cases v with
  | arr l =>
    cases hm : l.mapM (mkSkillRecord cvId) with
    | error e =>
      simp only [skillStep, hm, outDB]
      exact h
    | ok recs =>
      simp only [skillStep, hm, outDB]
      split
      · refine ⟨h.1, h.2.1, ?_⟩
        intro e he
        rcases List.mem_append.mp he with hin | hnew
        · exact h.2.2 e hin
        · have hrid := mapM_mkSkillRecord_mem cvId l recs hm e hnew
          rw [hrid]
          exact hc
      · exact h
  | null => exact h
  | undefined => exact h
  | bool b => exact h
  | num n => exact h
  | str s => exact h
  | obj fields => exact h

/-- The whole `score > 65` detail block keeps the invariant. -/
theorem detailsValid_insertDetails (a : Js) (cvId : Nat) (db : DB)
    (h : detailsValid db)
    (hc : ∃ c ∈ db.cv_results, c.id = cvId ∧ 65 < rowScore c) :
    detailsValid (outDB (insertDetails a cvId db)) := by
  unfold insertDetails
  have h1 := detailsValid_eduStep (getField a "Edu") cvId db h hc
  have hc1 : ∃ c ∈ (eduStep (getField a "Edu") cvId db).cv_results,
      c.id = cvId ∧ 65 < rowScore c := by
    rw [(eduStep_frame (getField a "Edu") cvId db).2.1]
    exact hc
  have h2 := detailsValid_expStep (getField a "EXPERIENCE") cvId _ h1 hc1
  have hc2 : ∃ c ∈ (expStep (getField a "EXPERIENCE") cvId
      (eduStep (getField a "Edu") cvId db)).cv_results,
      c.id = cvId ∧ 65 < rowScore c := by
    rw [(expStep_frame (getField a "EXPERIENCE") cvId _).2.1]
    exact hc1
  exact detailsValid_skillStep (getField a "SKILLS") cvId _ h2 hc2

/-- Appending a fresh `cv_results` row preserves the invariant. -/
theorem detailsValid_addCvRow (db : DB) (row : CvRow) (n : Nat)
    (h : detailsValid db) :
    detailsValid { db with nextCvId := n, cv_results := db.cv_results ++ [row] } := by
  refine ⟨?_, ?_, ?_⟩
  · intro e he
    obtain ⟨c, hcmem, hrest⟩ := h.1 e he
    exact ⟨c, List.mem_append_left _ hcmem, hrest⟩
  · intro e he
    obtain ⟨c, hcmem, hrest⟩ := h.2.1 e he
    exact ⟨c, List.mem_append_left _ hcmem, hrest⟩
  · intro e he
    obtain ⟨c, hcmem, hrest⟩ := h.2.2 e he
    exact ⟨c, List.mem_append_left _ hcmem, hrest⟩

/-- One pass of the per-file loop body preserves the invariant. -/
theorem detailsValid_processFile (j : FileJob) (sid : Nat) (db : DB)
    (h : detailsValid db) :
    detailsValid (outDB (processFile j sid db)) := by
  unfold processFile
  split
  · exact h
  · split
    · exact h
    · split
      · exact h
      · split
        · split
          · exact h
          · split
            case isTrue hscore =>
              refine detailsValid_insertDetails _ db.nextCvId _ ?_ ?_
              · exact detailsValid_addCvRow db _ _ h
              · refine ⟨_, List.mem_append_right _ (List.mem_singleton_self _), rfl, ?_⟩
                rw [rowScore_mkCvRow]
                exact hscore
            case isFalse => exact detailsValid_addCvRow db _ _ h
        · exact h

/-- The whole background loop preserves the invariant. -/
theorem detailsValid_processFiles (jobs : List FileJob) (sid : Nat) (db : DB)
    (h : detailsValid db) :
    detailsValid (processFiles jobs sid db) := by
  induction jobs generalizing db with
  | nil => exact h
  | cons j rest ih =>
    have hstep := detailsValid_processFile j sid db h
    unfold processFiles
    cases hpf : processFile j sid db with
    | ok db1 =>
      rw [hpf] at hstep
      exact ih db1 hstep
    | error db1 =>
      rw [hpf] at hstep
      exact hstep

/-- With a derived score at or below 65, the loop body leaves all three
detail tables untouched. -/
theorem detailTables_processFile_le (j : FileJob) (sid : Nat) (db : DB)
    (hle : ∀ a, analyzeCvText j.analysisOutcome = some a → scoreOfAnalysis a ≤ 65) :
    detailTables (outDB (processFile j sid db)) = detailTables db := by
  unfold processFile
  split
  · rfl
  · split
    · rfl
    · split
      · rfl
      case _ a ha =>
        split
        · split
          · rfl
          · split
            case isTrue hscore =>
              exact absurd hscore (by simp; exact hle a ha)
            case isFalse => rfl
        · rfl

-- ---------------------------------------------------------------------------
-- Claim theorems
-- ---------------------------------------------------------------------------

/-- C1: for every analysis result whose derived score is at or below 65, the
persister creates zero rows in all three detail tables for that CvResult (the
loop body leaves every detail table untouched), and every detail row ever
created references an existing `cv_results` row whose derived score strictly
exceeds 65 (the invariant `detailsValid` is preserved by the whole batch). -/
theorem threshold_gates_detail_rows (jobs : List FileJob) (j : FileJob)
    (sid : Nat) (db : DB)
    (hdb : detailsValid db)
    (hle : ∀ a, analyzeCvText j.analysisOutcome = some a → scoreOfAnalysis a ≤ 65) :
    detailsValid (processFiles jobs sid db) ∧
    detailTables (outDB (processFile j sid db)) = detailTables db :=
  ⟨detailsValid_processFiles jobs sid db hdb, detailTables_processFile_le j sid db hle⟩

/-- Witness for C1: a batch containing a 70%-scoring file keeps the invariant
from the empty datastore, and a 40%-scoring file adds no detail rows. -/
theorem threshold_gates_detail_rows_witness :
    detailsValid (processFiles [goodJob] 0 emptyDB) ∧
    detailTables (outDB (processFile lowJob 0 emptyDB)) = detailTables emptyDB := by
  refine threshold_gates_detail_rows [goodJob] lowJob 0 emptyDB ?_ ?_
  · refine ⟨?_, ?_, ?_⟩ <;> intro e he <;> exact absurd he (List.not_mem_nil e)
  · intro a ha
    have heq : analyzeCvText lowJob.analysisOutcome = some aLow := rfl
    rw [heq] at ha
    rw [← Option.some.inj ha]
    decide

/-- C3: extraction never raises to the pipeline — an unsupported media type
yields an absent result, a failing OCR or PDF-parse call is caught and yields
absent, a file with absent extraction or failed analysis contributes no
`cv_results` row, and the remaining files of the batch are still processed. -/
theorem extraction_degrades_not_fails (j : FileJob) (rest : List FileJob)
    (sid : Nat) (db : DB) :
    (strStartsWith j.mimetype "image/" = false → j.mimetype ≠ "application/pdf" →
      extractText j = none) ∧
    (∀ e : Unit, getTextFromImage (.error e) = none ∧ getTextFromPdf (.error e) = none) ∧
    (extractText j = none → processFile j sid db = .ok db) ∧
    (j.analysisOutcome = .error () → processFile j sid db = .ok db) ∧
    (processFile j sid db = .ok db → processFiles (j :: rest) sid db = processFiles rest sid db) := by
  refine ⟨?_, ?_, ?_, ?_, ?_⟩
  · intro h1 h2
    simp [extractText, h1, h2]
  · intro e
    exact ⟨rfl, rfl⟩
  · intro hx
    simp [processFile, hx]
  · intro ha
    unfold processFile
    cases hx : extractText j with
    | none => rfl
    | some t =>
      by_cases ht : t = ""
      · simp [ht]
      · simp [ht, analyzeCvText, ha]
  · intro hok
    show (match processFile j sid db with
      | Except.ok db1 => processFiles rest sid db1
      | Except.error db1 => db1) = processFiles rest sid db
    rw [hok]

/-- Witness for C3: a `.docx` upload is skipped and leaves the rest of the
batch to be processed from the same state. -/
theorem extraction_degrades_not_fails_witness :
    extractText docxJob = none ∧
    processFiles [docxJob, goodJob] 0 emptyDB = processFiles [goodJob] 0 emptyDB := by
  have h := extraction_degrades_not_fails docxJob [goodJob] 0 emptyDB
  have h1 : extractText docxJob = none := h.1 (by decide) (by decide)
  exact ⟨h1, h.2.2.2.2 (h.2.2.1 h1)⟩

/-- C4: every accepted submit request creates exactly one `submissions` row
carrying the supplied keywords, before any file is processed (the background
loop never touches that table), and the new submission id is returned with
status 200 independently of the files' content. -/
theorem submission_created_once (jobs : List FileJob) (kw : Option String)
    (db : DB) (hne : jobs ≠ []) :
    (analyzeHandler jobs kw false db).1 = .success db.nextSubmissionId ∧
    (analyzeHandler jobs kw false db).2.submissions =
      db.submissions ++ [⟨db.nextSubmissionId, kw, none⟩] ∧
    (∀ jobs2 sid d, (processFiles jobs2 sid d).submissions = d.submissions) ∧
    (∀ jobs2, jobs2 ≠ [] →
      (analyzeHandler jobs2 kw false db).1 = (analyzeHandler jobs kw false db).1) := by
  have hlen : ¬ jobs.length = 0 := fun h0 => hne (List.length_eq_zero.mp h0)
  refine ⟨?_, ?_, processFiles_submissions, ?_⟩
  · simp [analyzeHandler, hlen]
  · simp [analyzeHandler, hlen, processFiles_submissions]
  · intro jobs2 h2
    have hlen2 : ¬ jobs2.length = 0 := fun h0 => h2 (List.length_eq_zero.mp h0)
    simp [analyzeHandler, hlen, hlen2]

/-- Witness for C4 at a concrete request. -/
theorem submission_created_once_witness :
    (analyzeHandler [goodJob] (some "sql, tableau") false emptyDB).1 = .success 0 ∧
    (analyzeHandler [goodJob] (some "sql, tableau") false emptyDB).2.submissions =
      [⟨0, some "sql, tableau", none⟩] := by
  have h := submission_created_once [goodJob] (some "sql, tableau") emptyDB (by simp)
  exact ⟨h.1, h.2.1⟩

/-- C5: the reported `matchPercentage` of a stored row equals the score the
persister derived from the analysis (`parseInt(ATS) || 0`); for a stored
string it is the parsed leading integer, and 0 when no leading integer
parses. -/
theorem ats_score_roundtrip (a : Js) (sid cvId : Nat) (fn t : String) :
    (cvSummary (mkCvRow sid cvId fn a t)).matchPercentage = scoreOfAnalysis a ∧
    (∀ c : CvRow, ∀ s : String, c.ats_score = .str s →
      (cvSummary c).matchPercentage = (parseIntJS s).getD 0) ∧
    (∀ c : CvRow, ∀ s : String, c.ats_score = .str s → parseIntJS s = none →
      (cvSummary c).matchPercentage = 0) := by
  refine ⟨?_, ?_, ?_⟩
  · exact rowScore_mkCvRow sid cvId fn a t
  · intro c s hs
    simp [cvSummary, hs, jsToStr, parseIntOr0]
  · intro c s hs hn
    simp [cvSummary, hs, jsToStr, parseIntOr0, hn]

/-- Witness for C5: `"85%"` reports 85, `"N/A"` reports 0, and the stored row
of a 70% analysis reports its persist-time score. -/
theorem ats_score_roundtrip_witness :
    (cvSummary (mkCvRow 0 0 "cv.pdf" aGood "text")).matchPercentage = scoreOfAnalysis aGood ∧
    (cvSummary ⟨1, 0, "x.pdf", Js.str "85%", Js.null, Js.null, Js.null, "t"⟩).matchPercentage = 85 ∧
    (cvSummary ⟨2, 0, "y.pdf", Js.str "N/A", Js.null, Js.null, Js.null, "t"⟩).matchPercentage = 0 := by
  refine ⟨(ats_score_roundtrip aGood 0 0 "cv.pdf" "text").1, ?_, ?_⟩
  · exact ((ats_score_roundtrip aGood 0 0 "cv.pdf" "text").2.1 _ "85%" rfl).trans (by decide)
  · exact (ats_score_roundtrip aGood 0 0 "cv.pdf" "text").2.2 _ "N/A" rfl (by decide)

/-- `eduStep` on an array appends one row per element (including the empty
case, where the insert is skipped and the table is unchanged). -/
theorem eduStep_arr (l : List Js) (cvId : Nat) (db : DB) :
    eduStep (.arr l) cvId db =
      { db with education_details :=
          db.education_details ++ l.map (fun item => ⟨cvId, item⟩) } := by
  cases l with
  | nil => simp [eduStep]
  | cons x xs => simp [eduStep]

/-- `expStep` on an array appends one row per element. -/
theorem expStep_arr (l : List Js) (cvId : Nat) (db : DB) :
    expStep (.arr l) cvId db =
      { db with experience_details :=
          db.experience_details ++ l.map (fun item => ⟨cvId, item⟩) } := by
  cases l with
  | nil => simp [expStep]
  | cons x xs => simp [expStep]

/-- `skillStep` on an array of non-`null`, non-`undefined` items returns and
appends one row per item, taking positions 0 and 1 of each. -/
theorem skillStep_arr_ok (l : List Js) (cvId : Nat) (db : DB)
    (hsk : ∀ x ∈ l, x ≠ .null ∧ x ≠ .undefined) :
    skillStep (.arr l) cvId db =
      .ok { db with skill_details :=
          db.skill_details ++ l.map (fun item => ⟨cvId, jsIndexD item 0, jsIndexD item 1⟩) } := by
  simp only [skillStep, mapM_mkSkillRecord_ok cvId l hsk]
  split
  · rfl
  · rename_i h0
    have hnil : l = [] := by simpa using h0
    subst hnil
    simp

/-- C2 (amended): for an analysis with derived score > 65 reached by the
persister, arrays `Edu` and `EXPERIENCE` of n elements produce exactly n
rows each, and `SKILLS` produces exactly n rows provided no entry is
`null`/`undefined` (such an entry throws — see the counterexample); each row
references the new `cv_results` id, and an empty or absent array produces no
rows and no error. -/
theorem detail_row_counts (a : Js) (cvId : Nat) (db : DB)
    (eduL exL skL : List Js)
    (hE : getField a "Edu" = .arr eduL)
    (hX : getField a "EXPERIENCE" = .arr exL)
    (hS : getField a "SKILLS" = .arr skL)
    (hsk : ∀ x ∈ skL, x ≠ .null ∧ x ≠ .undefined) :
    insertDetails a cvId db = .ok
      { db with
          education_details := db.education_details ++ eduL.map (fun item => ⟨cvId, item⟩)
          experience_details := db.experience_details ++ exL.map (fun item => ⟨cvId, item⟩)
          skill_details := db.skill_details ++ skL.map (fun item => ⟨cvId, jsIndexD item 0, jsIndexD item 1⟩) } ∧
    (eduStep .undefined cvId db = db ∧ expStep .undefined cvId db = db ∧
      skillStep .undefined cvId db = .ok db) ∧
    (∀ (j : FileJob) (sid : Nat) (t : String),
      extractText j = some t → t ≠ "" → j.analysisOutcome = .ok a →
      truthy a = true → j.cvInsertFails = false → 65 < scoreOfAnalysis a →
      processFile j sid db = insertDetails a db.nextCvId
        { db with
            nextCvId := db.nextCvId + 1
            cv_results := db.cv_results ++ [mkCvRow sid db.nextCvId j.originalname a t] }) := by
  refine ⟨?_, ⟨rfl, rfl, rfl⟩, ?_⟩
  · unfold insertDetails
    rw [hE, hX, hS, eduStep_arr, expStep_arr, skillStep_arr_ok _ _ _ hsk]
  · intro j sid t hxt ht han htr hins hsc
    simp [processFile, hxt, ht, han, analyzeCvText, htr, hins, hsc]

/-- Counterexample for C2 as stated: an analysis scoring 70% whose `SKILLS`
array has one (null) element produces zero `skill_details` rows — the map
callback throws — where the claim promises exactly one. -/
theorem detail_row_counts_cex :
    getField aBad "SKILLS" = Js.arr [Js.null] ∧
    65 < scoreOfAnalysis aBad ∧
    isThrow (processFile badJob 0 emptyDB) = true ∧
    (outDB (processFile badJob 0 emptyDB)).skill_details = [] ∧
    (outDB (processFile badJob 0 emptyDB)).education_details.length = 1 :=
  ⟨rfl, by decide, rfl, rfl, rfl⟩

/-- Witness for C2 (amended) at a concrete analysis object. -/
theorem detail_row_counts_witness :
    insertDetails aGood 0 emptyDB = .ok
      { emptyDB with
          education_details := [⟨0, Js.str "BSc"⟩]
          experience_details := [⟨0, Js.str "Dev"⟩]
          skill_details := [⟨0, Js.str "Databases", Js.str "SQL"⟩] } ∧
    processFile goodJob 0 emptyDB = insertDetails aGood 0
      { emptyDB with
          nextCvId := 1
          cv_results := [mkCvRow 0 0 "cv.pdf" aGood "some text"] } := by
  have h := detail_row_counts aGood 0 emptyDB [Js.str "BSc"] [Js.str "Dev"]
    [Js.arr [Js.str "Databases", Js.str "SQL"]] rfl rfl rfl
    (by intro x hx; simp at hx; subst hx; exact ⟨by simp, by simp⟩)
  exact ⟨h.1, h.2.2 goodJob 0 "some text" rfl (by simp) rfl rfl rfl (by decide)⟩

/-- C9 (amended): the persister tolerates `SKILLS` entries that are not
2-element pairs — any entry other than `null`/`undefined` is processed
without crashing, its positions 0 and 1 (possibly `undefined`) becoming
category and details — but a `null`/`undefined` entry makes the map throw
(see the counterexample). -/
theorem skills_entries_tolerated (skL : List Js) (cvId : Nat) (db : DB)
    (hsk : ∀ x ∈ skL, x ≠ .null ∧ x ≠ .undefined) :
    skillStep (.arr skL) cvId db = .ok
      { db with skill_details :=
          db.skill_details ++ skL.map (fun item => ⟨cvId, jsIndexD item 0, jsIndexD item 1⟩) } ∧
    (∀ x ∈ skL, jsIndex x 0 = .ok (jsIndexD x 0) ∧ jsIndex x 1 = .ok (jsIndexD x 1)) ∧
    (skL ≠ [] → denoSkillStep (.arr skL) cvId db = .ok
      { db with skill_details :=
          db.skill_details ++ skL.map (fun item => ⟨cvId, jsIndexD item 0, jsIndexD item 1⟩) }) := by
  refine ⟨skillStep_arr_ok skL cvId db hsk, ?_, ?_⟩
  · intro x hx
    exact ⟨jsIndex_ok x 0 (hsk x hx).1 (hsk x hx).2, jsIndex_ok x 1 (hsk x hx).1 (hsk x hx).2⟩
  · intro hne
    have hlen : hasTruthyLength (.arr skL) = true := by
      simp [hasTruthyLength, hne]
    simp only [denoSkillStep, hlen]
    rw [if_pos trivial, mapM_mkSkillRecord_ok cvId skL hsk]

/-- Counterexample for C9 as stated: a `SKILLS` array whose entry is `null`
makes both variants of the persister throw instead of producing a row. -/
theorem skills_null_entry_throws_cex :
    skillStep (.arr [Js.null]) 0 emptyDB = .error emptyDB ∧
    denoSkillStep (.arr [Js.null]) 0 emptyDB = .error emptyDB :=
  ⟨rfl, rfl⟩

/-- Witness for C9 (amended): string and number entries are tolerated, the
string contributing its characters and the number `undefined` fields. -/
theorem skills_entries_tolerated_witness :
    skillStep (.arr [Js.str "sql", Js.num 5]) 0 emptyDB = .ok
      { emptyDB with skill_details :=
          [⟨0, Js.str "s", Js.str "q"⟩, ⟨0, Js.undefined, Js.undefined⟩] } := by
  have h := skills_entries_tolerated [Js.str "sql", Js.num 5] 0 emptyDB
    (by intro x hx; simp at hx; rcases hx with rfl | rfl <;> exact ⟨by simp, by simp⟩)
  exact h.1

/-- C6 (amended): the results reader yields the not-found outcome for an
unknown id, the still-processing outcome for a known id with zero
`cv_results` rows, and otherwise — provided the stored keyword column is a
string — the success payload with the row count, the comma-split trimmed
keywords and one summary per row.  (A submission stored without keywords
makes the success path throw instead — see the counterexample.) -/
theorem results_read_outcomes (db : DB) (id : Nat) :
    ((∀ s ∈ db.submissions, s.id ≠ id) → getResults db id = .notFound) ∧
    (∀ sub, db.submissions.find? (fun s => s.id == id) = some sub →
      (db.cv_results.filter (fun c => c.submission_id == id)).length = 0 →
      getResults db id = .processing) ∧
    (∀ sub kw, db.submissions.find? (fun s => s.id == id) = some sub →
      sub.keywords = some kw →
      (db.cv_results.filter (fun c => c.submission_id == id)).length ≠ 0 →
      getResults db id = .success
        (db.cv_results.filter (fun c => c.submission_id == id)).length
        ((jsSplitComma kw).map jsTrim)
        ((db.cv_results.filter (fun c => c.submission_id == id)).map cvSummary)) := by
  refine ⟨?_, ?_, ?_⟩
  · intro hnone
    have hfind : db.submissions.find? (fun s => s.id == id) = none := by
      apply List.find?_eq_none.mpr
      intro s hs
      simpa using hnone s hs
    simp [getResults, hfind]
  · intro sub hfind hlen
    simp [getResults, hfind, hlen]
  · intro sub kw hfind hkw hlen
    simp [getResults, hfind, hlen, hkw]

/-- Counterexample for C6 as stated: a submission created by a request with
no keywords (accepted — see C7) and one processed file drives the reader
into a fourth outcome, the uncaught TypeError of `keywords.split(',')`. -/
theorem results_read_crash_cex :
    getResults (analyzeHandler [goodJob] none false emptyDB).2 0 = .crash :=
  rfl

/-- Witness for C6 (amended): the three outcomes at concrete datastores
produced by the submit handler. -/
theorem results_read_outcomes_witness :
    getResults (analyzeHandler [goodJob] (some "sql") false emptyDB).2 5 = .notFound ∧
    getResults (analyzeHandler [docxJob] (some "sql") false emptyDB).2 0 = .processing ∧
    getResults (analyzeHandler [goodJob] (some "a, b") false emptyDB).2 0 =
      .success 1 ["a", "b"] [⟨0, "cv.pdf", 70⟩] := by
  refine ⟨?_, ?_, ?_⟩
  · exact (results_read_outcomes _ 5).1 (by decide)
  · exact (results_read_outcomes _ 0).2.1 ⟨0, some "sql", none⟩ rfl rfl
  · exact (results_read_outcomes (analyzeHandler [goodJob] (some "a, b") false emptyDB).2 0).2.2
      ⟨0, some "a, b", none⟩ "a, b" rfl rfl (by decide)

/-- C7 (amended): a submit request with no files is rejected synchronously
with 400 and no Submission row, in both variants; a request with files but
missing keywords is NOT rejected — the handlers never check the keywords
(see the counterexample). -/
theorem missing_files_rejected (kw : Option String) (subFails : Bool)
    (db : DB) (u : Nat) :
    analyzeHandler [] kw subFails db = (.badRequest, db) ∧
    SubmitResp.statusCode (analyzeHandler [] kw subFails db).1 = 400 ∧
    denoServeHandler (some u) [] kw subFails db = (.noFiles, db) ∧
    DenoResp.statusCode (denoServeHandler (some u) [] kw subFails db).1 = 400 :=
  ⟨rfl, rfl, rfl, rfl⟩

/-- Counterexample for C7 as stated: a request with one file and missing
keywords is answered 200 and creates a Submission row with a null keyword
column. -/
theorem missing_keywords_not_rejected_cex :
    SubmitResp.statusCode (analyzeHandler [goodJob] none false emptyDB).1 = 200 ∧
    (analyzeHandler [goodJob] none false emptyDB).2.submissions = [⟨0, none, none⟩] :=
  ⟨rfl, rfl⟩

/-- C8 (amended): when the Submission insert fails, the request fails before
any file is extracted, analyzed or persisted (the datastore is returned
untouched) in all variants; `server.js` answers 500, while the edge-function
variants throw the error into their catch-all and answer 400. -/
theorem submission_failure_aborts (jobs : List FileJob) (djobs : List DenoFileJob)
    (kw : Option String) (db : DB) (u : Nat)
    (hj : jobs ≠ []) (hd : djobs ≠ []) :
    analyzeHandler jobs kw true db = (.serverError, db) ∧
    SubmitResp.statusCode (analyzeHandler jobs kw true db).1 = 500 ∧
    denoServeHandler (some u) djobs kw true db = (.caughtError, db) ∧
    DenoResp.statusCode (denoServeHandler (some u) djobs kw true db).1 = 400 := by
  have hlen : ¬ jobs.length = 0 := fun h0 => hj (List.length_eq_zero.mp h0)
  have hlend : ¬ djobs.length = 0 := fun h0 => hd (List.length_eq_zero.mp h0)
  refine ⟨?_, ?_, ?_, ?_⟩
  · simp [analyzeHandler, hlen]
  · simp [analyzeHandler, hlen, SubmitResp.statusCode]
  · simp [denoServeHandler, hlend]
  · simp [denoServeHandler, hlend, DenoResp.statusCode]

/-- Counterexample for C8 as stated: in the edge-function variant a failing
Submission insert surfaces with status 400, not 500. -/
theorem deno_submission_failure_status_cex :
    DenoResp.statusCode (denoServeHandler (some 0) [denoGoodJob] (some "sql") true emptyDB).1 = 400 ∧
    DenoResp.statusCode (denoServeHandler (some 0) [denoGoodJob] (some "sql") true emptyDB).1 ≠ 500 :=
  ⟨rfl, by decide⟩

/-- Witness for C8 (amended) at a concrete request. -/
theorem submission_failure_aborts_witness :
    analyzeHandler [goodJob] (some "sql") true emptyDB = (.serverError, emptyDB) ∧
    denoServeHandler (some 3) [denoGoodJob] (some "sql") true emptyDB = (.caughtError, emptyDB) := by
  have h := submission_failure_aborts [goodJob] [denoGoodJob] (some "sql") emptyDB 3
    (by simp) (by simp)
  exact ⟨h.1, h.2.2.1⟩

/-- C10: an error thrown while processing one file and not caught by the
helpers terminates the per-file loop at that file — the remaining files are
never processed, the datastore is frozen at the throw state — and nothing is
recorded or surfaced: the submit response is the plain success answer
computed independently of the files' processing, in both variants. -/
theorem uncaught_error_stops_batch (j : FileJob) (rest : List FileJob)
    (dj : DenoFileJob) (drest : List DenoFileJob) (sid : Nat)
    (db e1 db2 e2 : DB) (kw : Option String) :
    (processFile j sid db = .error e1 → processFiles (j :: rest) sid db = e1) ∧
    (processFileDeno dj sid db2 = .error e2 → denoProcessFiles (dj :: drest) sid db2 = e2) ∧
    (∀ dbh : DB, (analyzeHandler (j :: rest) kw false dbh).1 = .success dbh.nextSubmissionId) := by
  refine ⟨?_, ?_, ?_⟩
  · intro h
    show (match processFile j sid db with
      | Except.ok db1 => processFiles rest sid db1
      | Except.error db1 => db1) = e1
    rw [h]
  · intro h
    show (match processFileDeno dj sid db2 with
      | Except.ok db1 => denoProcessFiles drest sid db1
      | Except.error db1 => db1) = e2
    rw [h]
  · intro dbh
    simp [analyzeHandler]

/-- Witness for C10: the null-skill file kills the rest of the batch in the
Express variant, and a rejecting `arrayBuffer()` does so in the edge
function; in both cases the later good file contributes nothing. -/
theorem uncaught_error_stops_batch_witness :
    processFiles [badJob, goodJob] 0 emptyDB = outDB (processFile badJob 0 emptyDB) ∧
    denoProcessFiles [denoCrashJob, denoGoodJob] 0 emptyDB = emptyDB ∧
    (processFiles [badJob, goodJob] 0 emptyDB).cv_results.length = 1 := by
  have h := uncaught_error_stops_batch badJob [goodJob] denoCrashJob [denoGoodJob] 0
    emptyDB (outDB (processFile badJob 0 emptyDB)) emptyDB emptyDB none
  exact ⟨h.1 rfl, h.2.1 rfl, rfl⟩
